import Mathlib

/-!
Verification of the MACT repository (`src/Integration.ipynb`).

The notebook is a linear sequence of cells:
* cell 4 defines the integration bounds `lb = 0`, `ub = 1`, a plot sample
  count `nplots = 100`, the scalar function `fct(x) = x**2`, and its
  vectorized form `Fct = np.vectorize(fct)`;
* cell 6 builds the grid `X = np.linspace(lb, ub, nplots)` and plots
  `(X, Fct(X))`;
* cell 7 computes `reference = quad(fct, lb, ub)[0]` via the external
  adaptive-quadrature routine and prints it; the recorded output of the
  cell is `Integral by reference method: 0.33333333333333337`.

We embed every definition of the notebook shallowly.  Python is
dynamically typed and the notebook's numbers are ints and floats, so the
numeric definitions are stated over an arbitrary field `α`: theorems about
exact analysis instantiate `α := ℝ`, while concrete evaluations
instantiate `α := ℚ`, where every definition is executable.  Numpy arrays
become lists, the external quadrature and plotting routines become oracle
parameters (arbitrary functions), and the notebook's execution becomes
explicit state passing over a record of the notebook's global names.
-/

namespace MACT

variable {α : Type} [Field α]

/-- Lower bound for the integration (cell 4: `lb = 0`). -/
def lb : α := 0

/-- Upper bound for the integration (cell 4: `ub = 1`). -/
def ub : α := 1

/-- Number of points for plots (cell 4: `nplots = 100`). -/
def nplots : ℕ := 100

/-- The scalar function of cell 4: `def fct(x): output = x**2; return output`. -/
def fct (x : α) : α :=
  let output := x ^ 2
  output

/-- Elementwise application of a scalar function over an array,
embedding `np.vectorize` restricted to 1-D arrays (lists). -/
def np_vectorize (f : α → α) (xs : List α) : List α :=
  xs.map f

/-- Cell 4: `Fct = np.vectorize(fct)`. -/
def Fct : List α → List α :=
  np_vectorize fct

/-- Embedding of `np.linspace(a, b, num)` over an exact field: `num` evenly
spaced samples from `a` to `b` inclusive, with step `(b - a) / (num - 1)`. -/
def linspace (a b : α) (num : ℕ) : List α :=
  (List.range num).map (fun i : ℕ => a + (i : α) * ((b - a) / ((num : α) - 1)))

/-- Cell 6: `X = np.linspace(lb, ub, nplots)`. -/
def X : List α :=
  linspace lb ub nplots

/-- The points handed to the plotting facility in cell 6:
`plt.plot(X, Fct(X))` pairs each grid point with the function value. -/
def plottedPoints : List (α × α) :=
  X.zip (Fct X)

/-- Cell 7: `reference = quad(fct, lb, ub)[0]`, parametrised by the external
adaptive-quadrature oracle `quad`, which returns a pair
(approximate integral value, estimated absolute error). -/
def reference (quad : (α → α) → α → α → α × α) : α :=
  (quad fct lb ub).1

/-- Cell 7 instrumented with a call log: the cell performs exactly one call
to the quadrature oracle, at arguments `(fct, lb, ub)`, and keeps only the
first component of the returned pair. -/
def quadCellLogged (quad : (α → α) → α → α → α × α) :
    α × List ((α → α) × α × α) :=
  let call := quad fct lb ub
  (call.1, [(fct, lb, ub)])

/-- The value recorded in the notebook's output of cell 7:
`Integral by reference method: 0.33333333333333337`, read as an exact
decimal. -/
def reference_observed : ℚ :=
  33333333333333337 / 100000000000000000

/-- Modelled from the spec: the external adaptive quadrature routine's
default tolerance (the absolute-error target `epsabs = 1.49e-8` of
`scipy.integrate.quad`, whose internals are outside this repository). -/
def quad_default_tol : ℚ :=
  149 / 10000000000

/-- Cell 7 over a fallible quadrature oracle: the user code wraps the call
in no `try`/`except`, so the embedding simply propagates an exceptional
result.  `E` is the type of exceptions the library may raise. -/
def referenceE (E : Type) (quad : (α → α) → α → α → Except E (α × α)) :
    Except E α :=
  match quad fct lb ub with
  | Except.ok r => Except.ok r.1
  | Except.error e => Except.error e

/-- Cell 6's plot call over a fallible plotting oracle: the user code wraps
the call in no `try`/`except`, so the embedding simply propagates an
exceptional result. -/
def plotE (E : Type) (plot : List α → List α → Except E Unit) :
    Except E Unit :=
  plot X (Fct X)

/-- The global names the notebook defines, as one record: the state threaded
from cell to cell. -/
structure NotebookState (α : Type) where
  lb : α
  ub : α
  nplots : ℕ
  fct : α → α
  Fct : List α → List α
  X : List α
  reference : α

/-- Cell 4 as a state transformer: binds `lb`, `ub`, `nplots`, `fct` and
`Fct`, leaving every other global untouched. -/
def defCell (s : NotebookState α) : NotebookState α :=
  let lbV : α := 0
  let ubV : α := 1
  let nV : ℕ := 100
  let fctV : α → α := fun x => x ^ 2
  { s with lb := lbV, ub := ubV, nplots := nV, fct := fctV,
           Fct := np_vectorize fctV }

/-- Cell 6 as a state transformer: binds `X` and hands `(X, Fct(X))` to the
plotting facility; the plot's return value is produced as a separate output
that no later cell reads. -/
def plotCell (s : NotebookState α) : NotebookState α × List (α × α) :=
  let XV := linspace s.lb s.ub s.nplots
  ({ s with X := XV }, XV.zip (s.Fct XV))

/-- Cell 7 as a state transformer over the quadrature oracle: binds
`reference` to the first component of the oracle's result and prints it
(the printed value is the second output). -/
def quadCell (quad : (α → α) → α → α → α × α) (s : NotebookState α) :
    NotebookState α × α :=
  let r := (quad s.fct s.lb s.ub).1
  ({ s with reference := r }, r)

/-- The observable outputs of one full run of the notebook. -/
structure RunOutput (α : Type) where
  X : List α
  plotted : List (α × α)
  printed : α
  final : NotebookState α

/-- One full run of the notebook's code cells from an initial state,
with the quadrature oracle supplied as a parameter. -/
def runNotebook (quad : (α → α) → α → α → α × α) (s₀ : NotebookState α) :
    RunOutput α :=
  let s₁ := defCell s₀
  let p := plotCell s₁
  let q := quadCell quad p.1
  ⟨p.1.X, p.2, q.2, q.1⟩

/-- The exceptions the host runtime can raise in `fct`'s body: CPython's
`float.__pow__` raises `OverflowError` when the result is out of the
finite float range. -/
inductive PyExn : Type
  | overflowError

/-- The largest finite IEEE-754 binary64 value, `(2^53 - 1) * 2^971`,
as an exact rational. -/
def maxFloat : ℚ :=
  (2 ^ 53 - 1) * 2 ^ 971

/-- CPython float exponentiation `x ** n`, modelled over exact rationals
(every binary64 float is a rational): on finite operands whose exact power
exceeds the largest finite binary64 value in magnitude, `float.__pow__`
raises `OverflowError` instead of returning a value; otherwise it returns
the result.  The value path uses the exact result, the same idealization
as the rest of the embedding; rounding only affects which side of the
overflow check an input falls on within one ulp of the boundary, far from
the inputs considered here. -/
def floatPow (x : ℚ) (n : ℕ) : Except PyExn ℚ :=
  if maxFloat < |x ^ n| then Except.error PyExn.overflowError
  else Except.ok (x ^ n)

/-- The body of `fct` in an effectful, state-passing embedding over model
floats: `output = x**2; return output`, where `**` is the overflowing
float power; an `OverflowError` raised by `**` propagates, and the
notebook's globals `g` are threaded unchanged on both paths. -/
def fctS (x : ℚ) (g : NotebookState ℚ) :
    Except PyExn ℚ × NotebookState ℚ :=
  match floatPow x 2 with
  | Except.ok output => (Except.ok output, g)
  | Except.error e => (Except.error e, g)

/-- A concrete notebook state over model floats (all globals
unset/arbitrary). -/
def initStateQ : NotebookState ℚ :=
  ⟨0, 0, 0, fun _ => 0, fun _ => [], [], 0⟩

/-- A concrete quadrature oracle, used to instantiate oracle-parametric
theorems at a specific input. -/
def constQuadOracle : (ℝ → ℝ) → ℝ → ℝ → ℝ × ℝ :=
  fun _ _ _ => (0, 0)

/-- A concrete quadrature oracle differing from `constQuadOracle` only in
the returned error estimate (the pair's second component). -/
def constQuadOracleB : (ℝ → ℝ) → ℝ → ℝ → ℝ × ℝ :=
  fun _ _ _ => (0, 1)

/-- A concrete quadrature oracle that always raises exception `7`. -/
def failQuadOracle : (ℝ → ℝ) → ℝ → ℝ → Except ℕ (ℝ × ℝ) :=
  fun _ _ _ => Except.error 7

/-- A concrete plotting oracle that always raises exception `7`. -/
def failPlotOracle : List ℝ → List ℝ → Except ℕ Unit :=
  fun _ _ => Except.error 7

/-- A concrete initial notebook state (all globals unset/arbitrary). -/
def initState : NotebookState ℝ :=
  ⟨0, 0, 0, fun _ => 0, fun _ => [], [], 0⟩

/-! ## Supporting lemmas about the plotting grid -/

theorem X_length : (X : List ℝ).length = 100 := by
  simp only [X, linspace, nplots, List.length_map, List.length_range]

theorem X_getElem (i : ℕ) (hi : i < (X : List ℝ).length) :
    (X : List ℝ)[i] = (i : ℝ) / 99 := by
  simp only [X, linspace, lb, ub, nplots]
  rw [List.getElem_map, List.getElem_range]
  push_cast
  ring

theorem X_eq_canonical :
    (X : List ℝ) = (List.range 100).map (fun i : ℕ => (i : ℝ) / 99) := by
  apply List.ext_getElem
  · simp [X_length]
  · intro i h1 h2
    rw [X_getElem i h1, List.getElem_map, List.getElem_range]

/-! ## The claims -/

/-- C1: for `fct(x) = x**2` integrated over `[lb, ub] = [0, 1]`, the exact
integral equals the analytical value `1/3`, and the value the reference
call `quad(fct, lb, ub)[0]` computed in the notebook
(`0.33333333333333337`) equals `1/3` to within the adaptive quadrature
routine's default tolerance. -/
theorem reference_integral_matches_analytical :
    (∫ x in (lb : ℝ)..(ub : ℝ), fct x) = 1 / 3 ∧
    |reference_observed - 1 / 3| ≤ quad_default_tol := by
  constructor
  · have h1 : (∫ x in (lb : ℝ)..(ub : ℝ), fct x) = ∫ x in (0:ℝ)..(1:ℝ), x ^ 2 := by
      simp [fct, lb, ub]
    rw [h1, integral_pow]
    norm_num
  · norm_num [reference_observed, quad_default_tol, abs_le]

/-- C2: for every real scalar input `x`, `fct` returns `x` squared. -/
theorem fct_is_square : ∀ x : ℝ, fct x = x ^ 2 :=
  fun _ => rfl

/-- C3: the quadrature cell performs exactly one oracle call, at arguments
`(fct, lb, ub)`; `reference` is the first component of the returned pair,
and two oracles agreeing on that first component (even with different
error estimates) yield the same `reference`. -/
theorem quad_called_once_first_component_used
    (q q' : (ℝ → ℝ) → ℝ → ℝ → ℝ × ℝ)
    (h : (q fct lb ub).1 = (q' fct lb ub).1) :
    (quadCellLogged q).2.length = 1 ∧
    (quadCellLogged q).2 = [(fct, lb, ub)] ∧
    reference q = (q fct lb ub).1 ∧
    reference q = reference q' := by
  refine ⟨rfl, rfl, rfl, ?_⟩
  simpa [reference] using h

theorem quad_called_once_witness :
    (constQuadOracle fct lb ub).1 = (constQuadOracleB fct lb ub).1 ∧
    ((quadCellLogged constQuadOracle).2.length = 1 ∧
     (quadCellLogged constQuadOracle).2 = [(fct, lb, ub)] ∧
     reference constQuadOracle = (constQuadOracle fct lb ub).1 ∧
     reference constQuadOracle = reference constQuadOracleB) :=
  ⟨rfl, quad_called_once_first_component_used constQuadOracle constQuadOracleB rfl⟩

/-- C4: the vectorized form `Fct = np.vectorize(fct)` agrees elementwise
with the scalar function: it preserves the array's length and, at every
valid index, returns `fct` of the corresponding input entry. -/
theorem vectorize_agrees_elementwise (xs : List ℝ) (i : ℕ)
    (hi : i < xs.length) :
    (Fct xs).length = xs.length ∧
    (Fct xs)[i]? = some (fct (xs.get ⟨i, hi⟩)) := by
  have hi' : i < (Fct xs).length := by
    simpa [Fct, np_vectorize] using hi
  constructor
  · simp [Fct, np_vectorize]
  · rw [List.getElem?_eq_getElem hi']
    simp [Fct, np_vectorize]

theorem vectorize_agrees_elementwise_witness :
    0 < ([(3:ℝ)]).length ∧
    ((Fct [(3:ℝ)]).length = ([(3:ℝ)]).length ∧
     (Fct [(3:ℝ)])[0]? = some (fct (([(3:ℝ)]).get ⟨0, by simp⟩))) :=
  ⟨by simp, vectorize_agrees_elementwise [(3:ℝ)] 0 (by simp)⟩

/-- C5: the plotting cell and the quadrature cell reassign none of `lb`,
`ub`, `nplots`, `fct`, `Fct`; the plot's return value is a separate output
consumed by no later cell; and the computed reference value is the same
whether or not the plotting cell ran. -/
theorem no_mutation_reference_independent_of_plot
    (q : (ℝ → ℝ) → ℝ → ℝ → ℝ × ℝ) (s : NotebookState ℝ) :
    ((plotCell s).1.lb = s.lb ∧ (plotCell s).1.ub = s.ub ∧
     (plotCell s).1.nplots = s.nplots ∧ (plotCell s).1.fct = s.fct ∧
     (plotCell s).1.Fct = s.Fct) ∧
    ((quadCell q s).1.lb = s.lb ∧ (quadCell q s).1.ub = s.ub ∧
     (quadCell q s).1.nplots = s.nplots ∧ (quadCell q s).1.fct = s.fct ∧
     (quadCell q s).1.Fct = s.Fct ∧ (quadCell q s).1.X = s.X) ∧
    (quadCell q (plotCell (defCell s)).1).2 = (quadCell q (defCell s)).2 :=
  ⟨⟨rfl, rfl, rfl, rfl, rfl⟩, ⟨rfl, rfl, rfl, rfl, rfl, rfl⟩, rfl⟩

/-- C6: the user code installs no handler, so when the quadrature oracle
or the plotting oracle raises an exception at the arguments the notebook
passes, the cell's result is that same exception, unchanged. -/
theorem exceptions_propagate (E : Type)
    (q : (ℝ → ℝ) → ℝ → ℝ → Except E (ℝ × ℝ))
    (p : List ℝ → List ℝ → Except E Unit) (e : E)
    (hq : q fct lb ub = Except.error e)
    (hp : p X (Fct X) = Except.error e) :
    referenceE E q = Except.error e ∧ plotE E p = Except.error e := by
  constructor
  · simp [referenceE, hq]
  · simpa [plotE] using hp

theorem exceptions_propagate_witness :
    failQuadOracle fct lb ub = Except.error 7 ∧
    failPlotOracle X (Fct X) = Except.error 7 ∧
    (referenceE ℕ failQuadOracle = Except.error 7 ∧
     plotE ℕ failPlotOracle = Except.error 7) :=
  ⟨rfl, rfl, exceptions_propagate ℕ failQuadOracle failPlotOracle 7 rfl rfl⟩

/-- C7: the embedded cell sequence is a pure function of the initial state
and the quadrature oracle, so two runs from the same initial state with
the same oracle produce the same grid `X`, the same plotted values, and
the same printed reference value. -/
theorem run_deterministic (q q' : (ℝ → ℝ) → ℝ → ℝ → ℝ × ℝ)
    (s s' : NotebookState ℝ) (hq : q = q') (hs : s = s') :
    (runNotebook q s).X = (runNotebook q' s').X ∧
    (runNotebook q s).plotted = (runNotebook q' s').plotted ∧
    (runNotebook q s).printed = (runNotebook q' s').printed := by
  subst hq
  subst hs
  exact ⟨rfl, rfl, rfl⟩

theorem run_deterministic_witness :
    constQuadOracle = constQuadOracle ∧ initState = initState ∧
    ((runNotebook constQuadOracle initState).X
        = (runNotebook constQuadOracle initState).X ∧
     (runNotebook constQuadOracle initState).plotted
        = (runNotebook constQuadOracle initState).plotted ∧
     (runNotebook constQuadOracle initState).printed
        = (runNotebook constQuadOracle initState).printed) :=
  ⟨rfl, rfl,
   run_deterministic constQuadOracle constQuadOracle initState initState rfl rfl⟩

/-- C8: `fct` is nonnegative everywhere, every plotted value over the grid
is nonnegative, and (since `lb ≤ ub`) the exact integral of `fct` over
`[lb, ub]` is nonnegative. -/
theorem fct_nonneg_integral_nonneg (h : (lb : ℝ) ≤ ub) :
    (∀ x : ℝ, 0 ≤ fct x) ∧
    (∀ p ∈ (plottedPoints : List (ℝ × ℝ)), 0 ≤ p.2) ∧
    0 ≤ ∫ x in (lb : ℝ)..(ub : ℝ), fct x := by
  refine ⟨fun x => ?_, fun p hp => ?_, ?_⟩
  · simpa [fct] using sq_nonneg x
  · have h2 : p.2 ∈ Fct (X : List ℝ) := by
      obtain ⟨a, b⟩ := p
      exact (List.of_mem_zip (by simpa [plottedPoints] using hp)).2
    simp only [Fct, np_vectorize, List.mem_map] at h2
    obtain ⟨x, _, hx⟩ := h2
    rw [← hx]
    simpa [fct] using sq_nonneg x
  · refine intervalIntegral.integral_nonneg h ?_
    intro u _
    simpa [fct] using sq_nonneg u

theorem fct_nonneg_witness :
    (lb : ℝ) ≤ ub ∧
    ((∀ x : ℝ, 0 ≤ fct x) ∧
     (∀ p ∈ (plottedPoints : List (ℝ × ℝ)), 0 ≤ p.2) ∧
     0 ≤ ∫ x in (lb : ℝ)..(ub : ℝ), fct x) :=
  ⟨by norm_num [lb, ub], fct_nonneg_integral_nonneg (by norm_num [lb, ub])⟩

/-- C9: the plotting grid `X = np.linspace(lb, ub, nplots)` has exactly
`nplots = 100` points, starts at `lb`, ends at `ub`, is strictly
increasing, and is evenly spaced with step `1/99`. -/
theorem grid_properties (i : ℕ) (hi : i + 1 < (X : List ℝ).length) :
    (X : List ℝ).length = nplots ∧ nplots = 100 ∧
    (X : List ℝ).head? = some lb ∧
    (X : List ℝ).getLast? = some ub ∧
    List.Pairwise (fun a b : ℝ => a < b) (X : List ℝ) ∧
    (X : List ℝ).get ⟨i + 1, hi⟩ - (X : List ℝ).get ⟨i, Nat.lt_of_succ_lt hi⟩
      = 1 / 99 := by
  refine ⟨by rw [X_length]; rfl, rfl, ?_, ?_, ?_, ?_⟩
  · rw [X_eq_canonical, List.head?_eq_getElem?]
    rw [List.getElem?_map, List.getElem?_range (by norm_num)]
    norm_num [lb]
  · rw [X_eq_canonical, List.getLast?_eq_getElem?]
    simp only [List.length_map, List.length_range]
    rw [List.getElem?_map, List.getElem?_range (by norm_num)]
    norm_num [ub]
  · rw [X_eq_canonical]
    refine List.pairwise_map.mpr ?_
    refine (List.pairwise_lt_range 100).imp ?_
    intro a b hab
    have hcast : (a : ℝ) < b := by exact_mod_cast hab
    linarith
  · rw [List.get_eq_getElem, List.get_eq_getElem,
        X_getElem (i + 1) hi, X_getElem i (Nat.lt_of_succ_lt hi)]
    push_cast
    ring

theorem grid_properties_witness :
    0 + 1 < (X : List ℝ).length ∧
    ((X : List ℝ).length = nplots ∧ nplots = 100 ∧
     (X : List ℝ).head? = some lb ∧
     (X : List ℝ).getLast? = some ub ∧
     List.Pairwise (fun a b : ℝ => a < b) (X : List ℝ) ∧
     (X : List ℝ).get ⟨0 + 1, by rw [X_length]; norm_num⟩
        - (X : List ℝ).get ⟨0, by rw [X_length]; norm_num⟩ = 1 / 99) :=
  ⟨by rw [X_length]; norm_num,
   grid_properties 0 (by rw [X_length]; norm_num)⟩

/-- C10, counterexample: the claim that `fct` returns a value without
raising for every finite numeric argument is false.  The input `2^664` is
a finite float (it is at most `maxFloat`, and, being a power of two with
in-range exponent, is exactly representable), yet its square `2^1328`
overflows the float range, so evaluating `fct`'s body raises
`OverflowError` instead of returning a value. -/
theorem fct_raises_on_finite_overflowing_input :
    |(2 : ℚ) ^ 664| ≤ maxFloat ∧
    (fctS ((2 : ℚ) ^ 664) initStateQ).1 = Except.error PyExn.overflowError := by
  constructor
  · rw [abs_of_nonneg (by positivity)]
    norm_num [maxFloat]
  · have h : maxFloat < |((2 : ℚ) ^ 664) ^ 2| := by
      rw [abs_of_nonneg (by positivity)]
      norm_num [maxFloat]
    unfold fctS floatPow
    rw [if_pos h]

/-- C10, amended: `fct` is pure on numeric inputs — for every argument it
leaves the notebook's globals exactly as they were and its result is
independent of them — and it is total on every finite numeric argument
whose square stays within the finite float range: there it returns
`fct x = x**2` without raising.  (On finite arguments whose square
overflows, it raises `OverflowError`.) -/
theorem fct_pure_total_below_overflow (x : ℚ) (g : NotebookState ℚ)
    (h : |x ^ 2| ≤ maxFloat) :
    (∀ y : ℚ, ∀ g₀ : NotebookState ℚ, (fctS y g₀).2 = g₀) ∧
    (∀ y : ℚ, ∀ g₀ g₁ : NotebookState ℚ, (fctS y g₀).1 = (fctS y g₁).1) ∧
    (fctS x g).1 = Except.ok (fct x) := by
  refine ⟨fun y g₀ => ?_, fun y g₀ g₁ => ?_, ?_⟩
  · unfold fctS
    cases floatPow y 2 <;> rfl
  · unfold fctS
    cases floatPow y 2 <;> rfl
  · have hnot : ¬ (maxFloat < |x ^ 2|) := not_lt.mpr h
    unfold fctS floatPow
    rw [if_neg hnot]
    rfl

theorem fct_total_pure_witness :
    |(3 : ℚ) ^ 2| ≤ maxFloat ∧
    ((∀ y : ℚ, ∀ g₀ : NotebookState ℚ, (fctS y g₀).2 = g₀) ∧
     (∀ y : ℚ, ∀ g₀ g₁ : NotebookState ℚ, (fctS y g₀).1 = (fctS y g₁).1) ∧
     (fctS 3 initStateQ).1 = Except.ok (fct 3)) :=
  ⟨by rw [abs_of_nonneg (by norm_num)]; norm_num [maxFloat],
   fct_pure_total_below_overflow 3 initStateQ
     (by rw [abs_of_nonneg (by norm_num)]; norm_num [maxFloat])⟩

end MACT
